import Mathlib

/-!
Verification of the chat-over-document pipeline in `app.py` of the
`chat-bcgx` repository (a Streamlit financial-analyst RAG chatbot).

The repository's own logic is the orchestration in `app.py`:
`FinancialAnalystBot` (extract_pdf_content, extract_financial_data,
create_vectorstore, setup_conversation_chain, get_response) and the
`main` event handlers (document processing, chat input, clear chat).
External collaborators (Docling converter, the LangChain splitter /
FAISS index / ConversationalRetrievalChain, the Gemini LLM) are not
part of the repository; where a property depends on their behaviour
the corresponding definition is modelled from the specification and
marked `Modelled from the spec:` in its doc comment.
-/

set_option maxRecDepth 16384

namespace ChatBcgx

/-- Chunking configuration from `app.py`: `chunk_size=2000` passed to the
text splitter in `create_vectorstore`. -/
def chunk_size : Nat := 2000

/-- Chunking configuration from `app.py`: `chunk_overlap=400` passed to the
text splitter in `create_vectorstore`. -/
def chunk_overlap : Nat := 400

/-- Stride between the starts of consecutive chunks: `chunk_size - chunk_overlap`. -/
def chunk_stride : Nat := chunk_size - chunk_overlap

/-- Modelled from the spec: the Chunker (the LangChain
`RecursiveCharacterTextSplitter` instantiated in `create_vectorstore`,
external library code not in this repository). Spec §4.2: fixed-size
overlapping windows — each chunk has length at most `chunk_size` (2000),
consecutive chunks overlap by `chunk_overlap` (400), order preserved,
so each window starts `chunk_stride` (1600) after the previous one. -/
def chunkWindows (l : List Char) : List (List Char) :=
  if l.length ≤ 2000 then [l]
  else l.take 2000 :: chunkWindows (l.drop 1600)
termination_by l.length
decreasing_by
  simp only [not_le] at *
  simp only [List.length_drop]
  omega

theorem chunkWindows_short (l : List Char) (h : l.length ≤ 2000) :
    chunkWindows l = [l] := by
  rw [chunkWindows]
  simp [h]

theorem chunkWindows_long (l : List Char) (h : 2000 < l.length) :
    chunkWindows l = l.take 2000 :: chunkWindows (l.drop 1600) := by
  rw [chunkWindows]
  simp [Nat.not_le.mpr h]

/-- The number of windows obeys the ceiling formula
`ceil ((L - overlap) / (size - overlap))`, written with natural
subtraction and division as `(L - 400 + 1599) / 1600`, for `L > 400`. -/
theorem chunkWindows_count (l : List Char) (h : 400 < l.length) :
    (chunkWindows l).length = (l.length - 400 + 1599) / 1600 := by
  induction l using chunkWindows.induct with
  | case1 l hle =>
    rw [chunkWindows_short l hle]
    have h1 : l.length - 400 + 1599 < 3200 := by omega
    have h2 : 1600 ≤ l.length - 400 + 1599 := by omega
    simp only [List.length_cons, List.length_nil]
    omega
  | case2 l hgt ih =>
    rw [Nat.not_le] at hgt
    rw [chunkWindows_long l hgt]
    have hdrop : (l.drop 1600).length = l.length - 1600 := l.length_drop 1600
    have h400 : 400 < (l.drop 1600).length := by omega
    rw [List.length_cons, ih h400, hdrop]
    have : l.length - 1600 - 400 + 1599 + 1600 = l.length - 400 + 1599 := by omega
    rw [← this]
    rw [Nat.add_div_right _ (by norm_num)]

theorem chunkWindows_one (l : List Char) (h : l.length ≤ 2000) :
    (chunkWindows l).length = 1 := by
  rw [chunkWindows_short l h]
  rfl

/-- Dropping the 400-character overlap from every window and concatenating
yields the original text with its first 400 characters dropped. -/
theorem chunkWindows_drop_flatten (l : List Char) :
    ((chunkWindows l).map (List.drop 400)).flatten = l.drop 400 := by
  induction l using chunkWindows.induct with
  | case1 l hle =>
    rw [chunkWindows_short l hle]
    simp
  | case2 l hgt ih =>
    rw [Nat.not_le] at hgt
    rw [chunkWindows_long l hgt]
    rw [List.map_cons, List.flatten_cons, ih]
    rw [List.drop_take, List.drop_drop]
    have h1600 : (400 : Nat) + 1600 = 2000 := by norm_num
    have h2 : (2000 : Nat) - 400 = 1600 := by norm_num
    rw [h1600, h2]
    calc (l.drop 400).take 1600 ++ l.drop 2000
        = (l.drop 400).take 1600 ++ (l.drop 400).drop 1600 := by
          rw [List.drop_drop]
      _ = l.drop 400 := List.take_append_drop 1600 (l.drop 400)

/-- Concatenation of the windows with the 400-character overlapping prefix
removed from every window except the first. -/
def reconstructWindows (cs : List (List Char)) : List Char :=
  match cs with
  | [] => []
  | c :: rest => c ++ (rest.map (List.drop 400)).flatten

/-- Removing the overlapping prefixes and concatenating reconstructs the
original character sequence. -/
theorem chunkWindows_reconstruct (l : List Char) :
    reconstructWindows (chunkWindows l) = l := by
  by_cases h : l.length ≤ 2000
  · rw [chunkWindows_short l h, reconstructWindows]
    simp
  · rw [Nat.not_le] at h
    rw [chunkWindows_long l (by omega), reconstructWindows]
    rw [chunkWindows_drop_flatten, List.drop_drop]
    have : (1600 : Nat) + 400 = 2000 := by norm_num
    rw [this]
    exact List.take_append_drop 2000 l

/-- Every produced window has length at most `chunk_size` (2000). -/
theorem chunkWindows_le (l : List Char) :
    ∀ c ∈ chunkWindows l, c.length ≤ 2000 := by
  induction l using chunkWindows.induct with
  | case1 l hle =>
    rw [chunkWindows_short l hle]
    intro c hc
    simp only [List.mem_singleton] at hc
    subst hc
    exact hle
  | case2 l hgt ih =>
    rw [Nat.not_le] at hgt
    rw [chunkWindows_long l hgt]
    intro c hc
    rcases List.mem_cons.mp hc with h1 | h2
    · subst h1
      simp
    · exact ih c h2

/-- A conversation role, as in the `"role"` field of the entries of
`st.session_state.messages` in `app.py`. -/
inductive Role
  | user
  | assistant
  deriving DecidableEq, Repr

/-- One conversation turn: an entry of `st.session_state.messages`
(`app.py` keys `"role"` and `"content"`), and likewise a message of the
chain's buffer memory. -/
structure Turn where
  role : Role
  content : String
  deriving DecidableEq, Repr

/-- A LangChain `Document` as constructed in `main` (`app.py`):
`page_content` plus the metadata keys used there (`source` always;
`page` and `type` for financial-data segments). -/
structure Document where
  page_content : String
  source : String
  page : Option Nat
  type : Option String
  deriving DecidableEq, Repr

/-- A chunk produced by the text splitter: a slice of one Document's
content with the Document's metadata inherited. -/
structure Chunk where
  text : String
  source : String
  page : Option Nat
  type : Option String
  deriving DecidableEq, Repr

/-- One text segment collected by `extract_financial_data` (`app.py`):
`{"page": page.page_no, "content": str(segment), "type": "financial_data"}`. -/
structure Segment where
  page : Nat
  content : String
  type : String
  deriving DecidableEq, Repr

/-- The dictionary built by `extract_financial_data` (`app.py`): it always
carries both the `"tables"` and the `"text_segments"` keys. Table cells are
kept abstract as strings. -/
structure FinancialData where
  tables : List String
  text_segments : List Segment
  deriving DecidableEq, Repr

/-- The data one iteration of `generate_multimodal_pages` yields to
`extract_financial_data`: the page's cells, its segments (already
rendered by `str`), and the page number. -/
structure PageData where
  cells : List String
  segments : List String
  page_no : Nat
  deriving DecidableEq, Repr

/-- The outcome of the Docling conversion in `extract_pdf_content`
(`app.py`): the exported markdown plus the page stream handed to
`extract_financial_data`, where each page iteration may itself raise
(modelled as `Except`). A conversion/export failure is the `.error`
case of the surrounding `Except`. -/
structure ConvResult where
  markdown : String
  pages : List (Except String PageData)
  deriving Repr

/-- Processing one successfully yielded page, as the loop body of
`extract_financial_data` (`app.py`): extend `tables` with the page cells
when `page_cells` is truthy (non-empty), and append one `Segment` per
page segment with `type = "financial_data"`. -/
def pageAccum (fd : FinancialData) (p : PageData) : FinancialData :=
  { tables := fd.tables ++ (if p.cells = [] then [] else p.cells),
    text_segments :=
      fd.text_segments ++ p.segments.map (fun seg => ⟨p.page_no, seg, "financial_data"⟩) }

/-- The loop of `extract_financial_data` (`app.py`): pages are consumed in
order; the first page iteration that raises aborts the loop (the
surrounding `try`/`except` catches it) and whatever was accumulated so
far is kept. -/
def finLoop (fd : FinancialData) : List (Except String PageData) → FinancialData
  | [] => fd
  | .error _ :: _ => fd
  | .ok p :: rest => finLoop (pageAccum fd p) rest

/-- `extract_financial_data` (`app.py` lines 153-177): starts from the
dictionary with empty `"tables"` and `"text_segments"`, iterates the
multimodal pages inside a `try`, catches any exception (issuing only a
UI warning) and always returns the accumulated dictionary. -/
def extract_financial_data (pages : List (Except String PageData)) : FinancialData :=
  finLoop ⟨[], []⟩ pages

/-- Filesystem / external-call events of `extract_pdf_content`, used to
state the temporary-file lifecycle and the no-retry property. -/
inductive FsEvent
  | createTmp
  | convertCall
  | unlinkTmp
  deriving DecidableEq, Repr

/-- `extract_pdf_content` (`app.py` lines 129-151): materialize the upload
into a temporary file, then inside a `try` run the Docling conversion and
markdown export (the `conv` parameter is that external outcome) and
collect the financial data; any exception is caught and `(None, None)` is
returned; the `finally` block unlinks the temporary file on both paths.
The event list records, in order, the temp-file creation, the single
conversion attempt, and the unlink. -/
def extract_pdf_content (conv : Except String ConvResult) :
    (Option String × Option FinancialData) × List FsEvent :=
  match conv with
  | .ok r =>
      ((some r.markdown, some (extract_financial_data r.pages)),
        [.createTmp, .convertCall, .unlinkTmp])
  | .error _ =>
      ((none, none), [.createTmp, .convertCall, .unlinkTmp])

/-- Python truthiness of the `if content:` test in `main` (`app.py`):
`None` and the empty string are falsy. -/
def isTruthyContent : Option String → Bool
  | none => false
  | some s => !(s == "")

/-- The chunks of one Document: the window chunker applied to its content,
each chunk inheriting the Document's metadata, in content order. -/
def chunkDocument (d : Document) : List Chunk :=
  (chunkWindows d.page_content.data).map (fun w => ⟨⟨w⟩, d.source, d.page, d.type⟩)

/-- Modelled from the spec: `split_documents` of the LangChain text
splitter (external), spec §4.2 — chunk order preserves the original
Document order and each Document's internal order, so the chunk list is
the in-order concatenation of each Document's chunks. -/
def split_documents (docs : List Document) : List Chunk :=
  docs.flatMap chunkDocument

/-- Concatenating the chunk texts with the 400-character overlapping
prefix removed from every chunk but the first. -/
def reconstructChunks (cs : List Chunk) : String :=
  ⟨reconstructWindows (cs.map (fun c => c.text.data))⟩

/-- The per-session state held by `app.py`: the UI transcript
`st.session_state.messages`, the conversational chain's internal buffer
memory (`ConversationBufferMemory`, keyed `chat_history`), the FAISS
vector store (modelled as the chunk list it was built from), the
`documents_processed` flag and the stored `financial_data`. -/
structure AppState where
  messages : List Turn
  chainMem : List Turn
  vectorstore : Option (List Chunk)
  documents_processed : Bool
  financial_data : Option FinancialData
  deriving DecidableEq, Repr

/-- Document assembly in the `Proses Dokumen` handler of `main`
(`app.py` lines 308-321): one Document for the whole markdown content
with `source` metadata, followed — when `financial_data` is truthy and
has text segments — by one Document per text segment carrying `source`,
`page` and `type` metadata. -/
def buildDocuments (fileName content : String) (fd : FinancialData) : List Document :=
  ⟨content, fileName, none, none⟩ ::
    (if fd.text_segments = [] then []
     else fd.text_segments.map (fun seg => ⟨seg.content, fileName, some seg.page, some seg.type⟩))

/-- `create_vectorstore` (`app.py` lines 179-198): split the documents
into chunks and build a fresh FAISS store from exactly those chunks
(`buildOk` is the external embedding/index build outcome; on failure the
exception is caught, the previous store is left assigned and `False` is
returned). -/
def create_vectorstore (s : AppState) (docs : List Document) (buildOk : Bool) :
    AppState × Bool :=
  let chunks := split_documents docs
  if buildOk then ({ s with vectorstore := some chunks }, true) else (s, false)

/-- `setup_conversation_chain` (`app.py` lines 200-248): on success a new
chain is installed whose `ConversationBufferMemory` is freshly created,
hence empty (`chainOk` is the external construction outcome; on failure
the previous chain, and so its memory, is kept). -/
def setup_conversation_chain (s : AppState) (chainOk : Bool) : AppState × Bool :=
  if chainOk then ({ s with chainMem := [] }, true) else (s, false)

/-- The `Proses Dokumen` button handler of `main` (`app.py` lines
303-328): extract the PDF; only when the returned content is truthy,
assemble the documents, rebuild the vector store and the conversation
chain, and on full success set `documents_processed` and store the
financial data. `st.session_state.messages` is never touched here. -/
def processDocument (s : AppState) (fileName : String) (conv : Except String ConvResult)
    (buildOk chainOk : Bool) : AppState :=
  match extract_pdf_content conv with
  | ((content?, fd?), _) =>
    match content?, fd? with
    | some content, some fd =>
        if isTruthyContent (some content) then
          let docs := buildDocuments fileName content fd
          let r1 := create_vectorstore s docs buildOk
          if r1.2 then
            let r2 := setup_conversation_chain r1.1 chainOk
            if r2.2 then
              { r2.1 with documents_processed := true, financial_data := some fd }
            else r2.1
          else r1.1
        else s
    | _, _ => s

/-- Literal text of the `financial_prompt` template (`app.py` lines
204-229) before the `context` placeholder. -/
def promptSeg1 : String :=
  "\n                Anda adalah seorang Financial Analyst AI yang ahli dalam menganalisis dokumen keuangan perusahaan.\n                \n                Gunakan konteks berikut untuk menjawab pertanyaan tentang analisis keuangan:\n                "

/-- Literal text of the `financial_prompt` template between the `context`
and `chat_history` placeholders. -/
def promptSeg2 : String :=
  "\n                \n                Riwayat percakapan:\n                "

/-- Literal text of the `financial_prompt` template between the
`chat_history` and `question` placeholders. -/
def promptSeg3 : String :=
  "\n                \n                Pertanyaan: "

/-- Literal text of the `financial_prompt` template after the `question`
placeholder. -/
def promptSeg4 : String :=
  "\n                \n                Berikan analisis yang mendalam dan profesional dengan:\n                1. Analisis data keuangan yang relevan\n                2. Interpretasi rasio dan metrik keuangan\n                3. Insight tentang kinerja perusahaan\n                4. Rekomendasi berdasarkan data\n                5. Perbandingan dengan standar industri jika memungkinkan\n                \n                Jawaban harus dalam bahasa Indonesia dan gunakan format yang mudah dipahami.\n                Jika data tidak cukup, jelaskan keterbatasan analisis.\n                \n                Jawaban:\n                "

/-- A piece of a prompt template: literal text or a named input variable,
as a `PromptTemplate` decomposes its format string. -/
inductive TemplatePart
  | lit (s : String)
  | var (name : String)
  deriving DecidableEq, Repr

/-- The `financial_prompt` `PromptTemplate` of `setup_conversation_chain`
(`app.py` lines 204-229), with `input_variables`
`["context", "question", "chat_history"]`, decomposed into its literal
segments and placeholders in template order: context, then chat history,
then question. -/
def financial_prompt : List TemplatePart :=
  [.lit promptSeg1, .var "context", .lit promptSeg2, .var "chat_history",
   .lit promptSeg3, .var "question", .lit promptSeg4]

/-- Formatting a prompt template: substitute each named variable and
concatenate, a single left-to-right pass as Python `str.format` does. -/
def formatParts (f : String → String) : List TemplatePart → String
  | [] => ""
  | .lit s :: rest => s ++ formatParts f rest
  | .var n :: rest => f n ++ formatParts f rest

/-- The variable assignment used for `financial_prompt`: the retrieved
context, the rendered chat history, and the question. -/
def promptInputs (ctx hist q : String) : String → String := fun n =>
  if n = "context" then ctx
  else if n = "chat_history" then hist
  else if n = "question" then q
  else ""

/-- Modelled from the spec: the concatenation of the retrieved chunk
texts used as the `context` input (performed inside the external
combine-documents chain; spec §4.4: "concatenated retrieved chunk text
as context"), joined by blank lines. -/
def contextOf (retrieved : List Chunk) : String :=
  String.intercalate "\n\n" (retrieved.map Chunk.text)

/-- Modelled from the spec: the turn history "rendered as plain dialogue"
(spec §4.4) used as the `chat_history` input — one role-tagged line per
turn. -/
def renderHistory (mem : List Turn) : String :=
  String.intercalate "\n"
    (mem.map (fun t =>
      (match t.role with
       | .user => "Human: "
       | .assistant => "Assistant: ") ++ t.content))

/-- The prompt rendered for one chain invocation: the fixed
`financial_prompt` template with exactly the three substitutions. -/
def renderPrompt (mem : List Turn) (retrieved : List Chunk) (q : String) : String :=
  formatParts (promptInputs (contextOf retrieved) (renderHistory mem) q) financial_prompt

/-- Result of one invocation of the conversational retrieval chain: the
chain memory afterwards, the prompt that was rendered, and either the
answer with its source chunks or the raised error. -/
structure ChainResult where
  mem : List Turn
  prompt : String
  result : Except String (String × List Chunk)
  deriving Repr

/-- Modelled from the spec: one call of the external
`ConversationalRetrievalChain` built by `setup_conversation_chain`
(spec §4.4): retrieve chunks for the question (the `retrieved` parameter
stands for the external top-k retrieval), render the fixed prompt, invoke
the LLM (`llm` is its outcome); on success append a user Turn and an
assistant Turn to the chain memory, in that order, and yield the answer
with the retrieved chunks; on failure append the user Turn but no
assistant Turn and re-raise. -/
def chainCall (mem : List Turn) (retrieved : List Chunk) (q : String)
    (llm : Except String String) : ChainResult :=
  let prompt := renderPrompt mem retrieved q
  match llm with
  | .ok ans => ⟨mem ++ [⟨.user, q⟩, ⟨.assistant, ans⟩], prompt, .ok (ans, retrieved)⟩
  | .error e => ⟨mem ++ [⟨.user, q⟩], prompt, .error e⟩

/-- `get_response` (`app.py` lines 250-256): call the conversation chain;
on success return the answer and the source documents; on any exception
return the string `"Error: " + str(e)` and the empty source list. -/
def get_response (mem : List Turn) (retrieved : List Chunk) (q : String)
    (llm : Except String String) : List Turn × String × List Chunk :=
  match chainCall mem retrieved q llm with
  | ⟨mem2, _, .ok (ans, srcs)⟩ => (mem2, ans, srcs)
  | ⟨mem2, _, .error e⟩ => (mem2, "Error: " ++ e, [])

/-- The chat-input handler of `main` (`app.py` lines 389-403): append the
user's message to `st.session_state.messages`, call `get_response`, and
append the returned response — whatever it is — as an assistant message.
Returns the new state, the answer and the sources. -/
def askStep (s : AppState) (q : String) (retrieved : List Chunk)
    (llm : Except String String) : AppState × String × List Chunk :=
  let withUser := s.messages ++ [⟨.user, q⟩]
  let r := get_response s.chainMem retrieved q llm
  ({ s with messages := withUser ++ [⟨.assistant, r.2.1⟩], chainMem := r.1 }, r.2.1, r.2.2)

/-- The `Clear Chat` button handler of `main` (`app.py` lines 429-431):
`st.session_state.messages = []` and nothing else. -/
def clearChat (s : AppState) : AppState :=
  { s with messages := [] }

/-- A READY state right after a successful document processing: empty
transcript-relevant memory, a built vector store. -/
def readyState (chunks : List Chunk) : AppState :=
  { messages := [], chainMem := [], vectorstore := some chunks,
    documents_processed := true, financial_data := none }

/-- One scripted ask: the question, the chunks the external retriever
returns for it, and the answer the LLM returns (a successful call). -/
structure AskInput where
  question : String
  retrieved : List Chunk
  answer : String
  deriving DecidableEq, Repr

/-- Run a sequence of successful asks through the chat-input handler. -/
def runAsks (s : AppState) (asks : List AskInput) : AppState :=
  asks.foldl (fun st a => (askStep st a.question a.retrieved (.ok a.answer)).1) s

/-- The two Turns one successful ask contributes, user first. -/
def askTurns (a : AskInput) : List Turn :=
  [⟨.user, a.question⟩, ⟨.assistant, a.answer⟩]

/-- `sub` occurs literally inside `s`. -/
def HasSubstr (s sub : String) : Prop :=
  ∃ a b : List Char, s.data = a ++ (sub.data ++ b)

theorem strAppendAssoc (a b c : String) : a ++ b ++ c = a ++ (b ++ c) := by
  cases a with
  | mk la =>
    cases b with
    | mk lb =>
      cases c with
      | mk lc =>
        exact congrArg String.mk (List.append_assoc la lb lc)

theorem strAppendNil (a : String) : a ++ "" = a := by
  cases a with
  | mk la => exact congrArg String.mk (List.append_nil la)

theorem strDataAppend (a b : String) : (a ++ b).data = a.data ++ b.data := by
  cases a with
  | mk la =>
    cases b with
    | mk lb => rfl

/-- A successful ask appends the user Turn then the assistant Turn to the
transcript and to the chain memory, and hands back the answer and the
retrieved chunks. -/
theorem askStep_ok (s : AppState) (q : String) (retrieved : List Chunk) (a : String) :
    askStep s q retrieved (.ok a) =
      ({ s with messages := s.messages ++ [⟨.user, q⟩, ⟨.assistant, a⟩],
                chainMem := s.chainMem ++ [⟨.user, q⟩, ⟨.assistant, a⟩] }, a, retrieved) := by
  simp [askStep, get_response, chainCall]

/-- A failed ask appends the user Turn and an assistant Turn holding the
error string to the transcript, appends only the user Turn to the chain
memory, and hands back the error string with no sources. -/
theorem askStep_error (s : AppState) (q : String) (retrieved : List Chunk) (e : String) :
    askStep s q retrieved (.error e) =
      ({ s with messages := s.messages ++ [⟨.user, q⟩, ⟨.assistant, "Error: " ++ e⟩],
                chainMem := s.chainMem ++ [⟨.user, q⟩] }, "Error: " ++ e, []) := by
  simp [askStep, get_response, chainCall]

/-- Running scripted successful asks appends the interleaved user/assistant
Turns of each ask, in call order, to both the transcript and the chain
memory, and leaves the other fields unchanged. -/
theorem runAsks_spec (asks : List AskInput) (s : AppState) :
    runAsks s asks =
      { s with messages := s.messages ++ asks.flatMap askTurns,
               chainMem := s.chainMem ++ asks.flatMap askTurns } := by
  induction asks generalizing s with
  | nil => simp [runAsks]
  | cons a rest ih =>
    have hstep : runAsks s (a :: rest) =
        runAsks (askStep s a.question a.retrieved (.ok a.answer)).1 rest := by
      simp [runAsks]
    rw [hstep, askStep_ok, ih]
    simp [askTurns]

theorem flatMap_askTurns_length (asks : List AskInput) :
    (asks.flatMap askTurns).length = 2 * asks.length := by
  induction asks with
  | nil => rfl
  | cons a rest ih =>
    simp only [List.flatMap_cons, List.length_append, ih, askTurns]
    simp
    omega

/-- The extraction loop consumes exactly the successful pages before the
first raising iteration. -/
theorem finLoop_prefix (good : List PageData) (fd : FinancialData) (e : String)
    (rest : List (Except String PageData)) :
    finLoop fd (good.map .ok ++ .error e :: rest) = good.foldl pageAccum fd := by
  induction good generalizing fd with
  | nil => simp [finLoop]
  | cons p ps ih => simp [finLoop, ih]

/-- Postcondition of a fully successful `Proses Dokumen` run: the vector
store is rebuilt from exactly the chunks of the freshly assembled
documents, the chain memory is fresh, the flags and the financial data
are set — and nothing else changes (in particular `messages` is kept). -/
theorem processDocument_ok (s : AppState) (fileName : String) (r : ConvResult)
    (h : r.markdown ≠ "") :
    processDocument s fileName (.ok r) true true =
      { s with
          vectorstore :=
            some (split_documents (buildDocuments fileName r.markdown (extract_financial_data r.pages))),
          chainMem := [],
          documents_processed := true,
          financial_data := some (extract_financial_data r.pages) } := by
  have htruthy : isTruthyContent (some r.markdown) = true := by
    simp [isTruthyContent, h]
  simp [processDocument, extract_pdf_content, htruthy, create_vectorstore,
    setup_conversation_chain]

theorem chainCall_prompt (mem : List Turn) (retrieved : List Chunk) (q : String)
    (llm : Except String String) :
    (chainCall mem retrieved q llm).prompt = renderPrompt mem retrieved q := by
  cases llm <;> rfl

theorem renderPrompt_eq (mem : List Turn) (retrieved : List Chunk) (q : String) :
    renderPrompt mem retrieved q =
      promptSeg1 ++ contextOf retrieved ++ promptSeg2 ++ renderHistory mem ++
        promptSeg3 ++ q ++ promptSeg4 := by
  simp [renderPrompt, financial_prompt, formatParts, promptInputs,
    strAppendAssoc, strAppendNil]

/-- Claim C8 — every chain invocation renders the fixed `financial_prompt`
template with exactly three substitutions: the concatenated retrieved
chunk text as `context`, the rendered turn history as `chat_history`, and
the question verbatim; in particular, when retrieval returns the chunk
"Revenue was $5M" for the question "What is X?", the rendered prompt
contains both literal strings. -/
theorem C8_prompt_rendering :
    (∀ (mem : List Turn) (retrieved : List Chunk) (q : String) (llm : Except String String),
      (chainCall mem retrieved q llm).prompt =
        promptSeg1 ++ contextOf retrieved ++ promptSeg2 ++ renderHistory mem ++
          promptSeg3 ++ q ++ promptSeg4) ∧
    HasSubstr (chainCall [] [⟨"Revenue was $5M", "r.pdf", none, none⟩] "What is X?"
        (.ok "jawaban")).prompt "Revenue was $5M" ∧
    HasSubstr (chainCall [] [⟨"Revenue was $5M", "r.pdf", none, none⟩] "What is X?"
        (.ok "jawaban")).prompt "What is X?" := by
  refine ⟨fun mem retrieved q llm => by rw [chainCall_prompt, renderPrompt_eq], ?_, ?_⟩
  · refine ⟨promptSeg1.data,
      (promptSeg2 ++ renderHistory [] ++ promptSeg3 ++ "What is X?" ++ promptSeg4).data, ?_⟩
    rw [chainCall_prompt, renderPrompt_eq]
    have hctx : contextOf [⟨"Revenue was $5M", "r.pdf", none, none⟩] = "Revenue was $5M" := rfl
    rw [hctx]
    simp [strDataAppend, List.append_assoc]
  · refine ⟨(promptSeg1 ++ contextOf [⟨"Revenue was $5M", "r.pdf", none, none⟩] ++
        promptSeg2 ++ renderHistory [] ++ promptSeg3).data, (promptSeg4).data, ?_⟩
    rw [chainCall_prompt, renderPrompt_eq]
    simp [strDataAppend, List.append_assoc]

/-- Claim C9 — whenever the chain call raises, `get_response` returns the
error-labeled answer paired with exactly the empty source list. -/
theorem C9_error_empty_sources (mem : List Turn) (retrieved : List Chunk) (q e : String) :
    (get_response mem retrieved q (.error e)).2.1 = "Error: " ++ e ∧
    (get_response mem retrieved q (.error e)).2.2 = [] := by
  simp [get_response, chainCall]

/-- Claim C7 — chunking is deterministic: identical document sequences
under the identical (2000, 400) configuration yield identical chunk
sequences. -/
theorem C7_chunking_deterministic (docs1 docs2 : List Document) (h : docs1 = docs2) :
    split_documents docs1 = split_documents docs2 := by
  rw [h]

/-- Witness for C7 at a concrete document list. -/
theorem C7_chunking_deterministic_witness :
    ([⟨"laporan keuangan 2024", "report.pdf", none, none⟩] : List Document) =
      [⟨"laporan keuangan 2024", "report.pdf", none, none⟩] ∧
    split_documents [⟨"laporan keuangan 2024", "report.pdf", none, none⟩] =
      split_documents [⟨"laporan keuangan 2024", "report.pdf", none, none⟩] :=
  ⟨rfl, C7_chunking_deterministic _ _ rfl⟩

/-- Claim C6 — a failed PDF conversion is terminal for the upload:
extraction returns no content, the document-processing handler leaves the
whole previous state untouched, the conversion is attempted exactly once
(no retry), and the temporary file is unlinked after its creation on
every exit path, the failure path included. -/
theorem C6_conversion_failure_terminal (e : String) (s : AppState) (fileName : String)
    (buildOk chainOk : Bool) :
    extract_pdf_content (.error e) =
      ((none, none), [.createTmp, .convertCall, .unlinkTmp]) ∧
    processDocument s fileName (.error e) buildOk chainOk = s ∧
    (∀ conv : Except String ConvResult,
      (extract_pdf_content conv).2 = [.createTmp, .convertCall, .unlinkTmp] ∧
      (extract_pdf_content conv).2.count .convertCall = 1 ∧
      (extract_pdf_content conv).2 =
        [.createTmp] ++ [.convertCall] ++ [.unlinkTmp]) := by
  refine ⟨rfl, ?_, ?_⟩
  · simp [processDocument, extract_pdf_content]
  · intro conv
    cases conv <;> refine ⟨rfl, ?_, rfl⟩ <;> rfl

/-- Claim C1 (counterexample) — the claim "on an LLM failure no assistant
Turn is appended to the conversation memory" is false on the code: at the
concrete failed ask below, the chat handler (`app.py` line 401) appends
the returned error string as an assistant Turn, so the memory is the user
Turn followed by an assistant Turn, not the user Turn alone. -/
theorem C1_counterexample_assistant_turn_appended :
    (askStep (readyState []) "Berapa laba bersih?" [] (.error "boom")).1.messages =
      [⟨.user, "Berapa laba bersih?"⟩, ⟨.assistant, "Error: boom"⟩] ∧
    (askStep (readyState []) "Berapa laba bersih?" [] (.error "boom")).1.messages ≠
      [⟨.user, "Berapa laba bersih?"⟩] := by
  rw [askStep_error]
  refine ⟨rfl, ?_⟩
  decide

/-- Claim C1 (amended) — on a failed LLM invocation the returned answer is
the error-labeled string `"Error: " ++ e` with no sources, the user's
Turn is appended to the conversation memory, and the same error string is
appended right after it as an assistant Turn (rather than no assistant
Turn being appended). -/
theorem C1_amended_failure_turns (s : AppState) (q : String) (retrieved : List Chunk)
    (e : String) :
    (askStep s q retrieved (.error e)).2.1 = "Error: " ++ e ∧
    (askStep s q retrieved (.error e)).2.2 = [] ∧
    (askStep s q retrieved (.error e)).1.messages =
      s.messages ++ [⟨.user, q⟩, ⟨.assistant, "Error: " ++ e⟩] := by
  rw [askStep_error]
  exact ⟨rfl, rfl, rfl⟩

/-- Claim C2 — for a Document of content length L under the
(max = 2000, overlap = 400) configuration the Chunker yields exactly one
chunk when L ≤ 2000, exactly `ceil ((L - 400) / 1600)` chunks (written
with natural operations as `(L - 400 + 1599) / 1600`) when 400 < L, and
concatenating the chunk texts with the overlapping 400-character prefixes
removed reconstructs the original content. -/
theorem C2_chunk_count_and_reconstruction (d : Document) :
    (d.page_content.data.length ≤ 2000 → (chunkDocument d).length = 1) ∧
    (400 < d.page_content.data.length →
      (chunkDocument d).length = (d.page_content.data.length - 400 + 1599) / 1600) ∧
    reconstructChunks (chunkDocument d) = d.page_content := by
  have hlen : (chunkDocument d).length = (chunkWindows d.page_content.data).length := by
    simp [chunkDocument]
  have hmap : (chunkDocument d).map (fun c => c.text.data) =
      chunkWindows d.page_content.data := by
    rw [chunkDocument, List.map_map]
    exact List.map_id _
  refine ⟨?_, ?_, ?_⟩
  · intro h
    rw [hlen]
    exact chunkWindows_one _ h
  · intro h
    rw [hlen]
    exact chunkWindows_count _ h
  · rw [reconstructChunks, hmap, chunkWindows_reconstruct]

/-- Witness for C2 at a concrete 1000-character Document (both length
hypotheses hold there). -/
theorem C2_chunk_count_and_reconstruction_witness :
    ((⟨List.replicate 1000 'A'⟩ : String).data.length ≤ 2000 ∧
      400 < (⟨List.replicate 1000 'A'⟩ : String).data.length) ∧
    (chunkDocument ⟨⟨List.replicate 1000 'A'⟩, "report.pdf", none, none⟩).length = 1 ∧
    (chunkDocument ⟨⟨List.replicate 1000 'A'⟩, "report.pdf", none, none⟩).length =
      ((⟨List.replicate 1000 'A'⟩ : String).data.length - 400 + 1599) / 1600 ∧
    reconstructChunks (chunkDocument ⟨⟨List.replicate 1000 'A'⟩, "report.pdf", none, none⟩) =
      (⟨List.replicate 1000 'A'⟩ : String) := by
  have hdata : (⟨List.replicate 1000 'A'⟩ : String).data.length = 1000 := by
    rw [show (⟨List.replicate 1000 'A'⟩ : String).data = List.replicate 1000 'A' from rfl,
      List.length_replicate]
  have hdoc : (⟨⟨List.replicate 1000 'A'⟩, "report.pdf", none, none⟩ :
      Document).page_content.data.length = 1000 := hdata
  refine ⟨⟨by omega, by omega⟩, ?_, ?_, ?_⟩
  · exact (C2_chunk_count_and_reconstruction _).1 (by rw [hdoc]; omega)
  · exact (C2_chunk_count_and_reconstruction _).2.1 (by rw [hdoc]; omega)
  · exact (C2_chunk_count_and_reconstruction _).2.2

/-- Claim C3 (counterexample) — the claim that after a successful
reprocess "the conversation history is empty, with no carry-over" is
false on the code: the `Proses Dokumen` handler never clears
`st.session_state.messages`, so at the concrete reprocess below the
pre-existing transcript survives unchanged. -/
theorem C3_counterexample_history_carries_over :
    (processDocument ⟨[⟨.user, "pertanyaan lama"⟩], [⟨.user, "pertanyaan lama"⟩,
        ⟨.assistant, "jawaban lama"⟩], some [], true, none⟩
      "baru.pdf" (.ok ⟨"isi dokumen baru", []⟩) true true).documents_processed = true ∧
    (processDocument ⟨[⟨.user, "pertanyaan lama"⟩], [⟨.user, "pertanyaan lama"⟩,
        ⟨.assistant, "jawaban lama"⟩], some [], true, none⟩
      "baru.pdf" (.ok ⟨"isi dokumen baru", []⟩) true true).messages =
      [⟨.user, "pertanyaan lama"⟩] ∧
    (processDocument ⟨[⟨.user, "pertanyaan lama"⟩], [⟨.user, "pertanyaan lama"⟩,
        ⟨.assistant, "jawaban lama"⟩], some [], true, none⟩
      "baru.pdf" (.ok ⟨"isi dokumen baru", []⟩) true true).messages ≠ [] := by
  rw [processDocument_ok _ _ _ (by decide)]
  refine ⟨rfl, rfl, ?_⟩
  decide

/-- Claim C3 (amended) — a successful reprocess rebuilds the vector store
from only the new file's chunks and resets the chain's conversation
memory to empty, but the UI transcript (`st.session_state.messages`) is
not cleared: it carries over unchanged across the reprocess. -/
theorem C3_amended_reprocess (s : AppState) (fileName : String) (r : ConvResult)
    (h : r.markdown ≠ "") :
    (processDocument s fileName (.ok r) true true).vectorstore =
      some (split_documents
        (buildDocuments fileName r.markdown (extract_financial_data r.pages))) ∧
    (processDocument s fileName (.ok r) true true).chainMem = [] ∧
    (processDocument s fileName (.ok r) true true).documents_processed = true ∧
    (processDocument s fileName (.ok r) true true).messages = s.messages := by
  rw [processDocument_ok s fileName r h]
  exact ⟨rfl, rfl, rfl, rfl⟩

/-- Witness for C3 (amended) at a concrete reprocess. -/
theorem C3_amended_reprocess_witness :
    ("isi dokumen" : String) ≠ "" ∧
    (processDocument (readyState []) "baru.pdf" (.ok ⟨"isi dokumen", []⟩) true true).chainMem
      = [] ∧
    (processDocument (readyState []) "baru.pdf" (.ok ⟨"isi dokumen", []⟩) true true).messages
      = (readyState []).messages :=
  ⟨by decide,
    (C3_amended_reprocess (readyState []) "baru.pdf" ⟨"isi dokumen", []⟩ (by decide)).2.1,
    (C3_amended_reprocess (readyState []) "baru.pdf" ⟨"isi dokumen", []⟩ (by decide)).2.2.2⟩

/-- Claim C4 (counterexample) — the claim that after clearing the chat "a
subsequent ask behaves as an ask against the same index with empty
history" is false on the code: the `Clear Chat` handler resets only
`st.session_state.messages`, so at the concrete run below the chain's
buffer memory still holds the earlier exchange and the next ask's
rendered prompt differs from the empty-history prompt. -/
theorem C4_counterexample_history_not_empty :
    (clearChat (askStep (readyState []) "q1" [] (.ok "a1")).1).messages = [] ∧
    (clearChat (askStep (readyState []) "q1" [] (.ok "a1")).1).chainMem ≠ [] ∧
    renderPrompt (clearChat (askStep (readyState []) "q1" [] (.ok "a1")).1).chainMem [] "q2" ≠
      renderPrompt [] [] "q2" := by
  refine ⟨by decide, by decide, by decide⟩

/-- Claim C4 (amended) — clearing the chat resets the UI transcript to the
empty sequence and leaves the index handle, the `documents_processed`
flag and the chain untouched (still READY, a subsequent ask still works
against the same index); the chain's internal history buffer is not
cleared, so that subsequent ask renders its prompt from the pre-clear
history rather than from an empty one. -/
theorem C4_amended_clear_chat (s : AppState) :
    (clearChat s).messages = [] ∧
    (clearChat s).vectorstore = s.vectorstore ∧
    (clearChat s).documents_processed = s.documents_processed ∧
    (clearChat s).chainMem = s.chainMem ∧
    (∀ (q : String) (retrieved : List Chunk) (llm : Except String String),
      (chainCall (clearChat s).chainMem retrieved q llm).prompt =
        renderPrompt s.chainMem retrieved q) := by
  refine ⟨rfl, rfl, rfl, rfl, ?_⟩
  intro q retrieved llm
  rw [chainCall_prompt]
  rfl

/-- Claim C5 — starting from the empty-memory READY state, N successful
asks leave the conversation memory holding exactly 2N Turns: the user and
assistant Turns of each call interleaved in call order (and the chain's
buffer memory agrees). -/
theorem C5_memory_after_successful_asks (chunks : List Chunk) (asks : List AskInput) :
    (runAsks (readyState chunks) asks).messages = asks.flatMap askTurns ∧
    (runAsks (readyState chunks) asks).messages.length = 2 * asks.length ∧
    (runAsks (readyState chunks) asks).chainMem = asks.flatMap askTurns := by
  have h := runAsks_spec asks (readyState chunks)
  have hm : (runAsks (readyState chunks) asks).messages = asks.flatMap askTurns := by
    rw [h]
    simp [readyState]
  refine ⟨hm, ?_, by rw [h]; simp [readyState]⟩
  rw [hm, flatMap_askTurns_length]

/-- Claim C10 — `extract_financial_data` catches any exception raised
during page iteration and still returns the (tables, text segments)
record holding everything collected before the failure; the upload then
proceeds: document processing chunks and indexes that partial financial
data and completes. -/
theorem C10_partial_extraction_proceeds (good : List PageData) (e : String)
    (rest : List (Except String PageData)) (s : AppState) (fileName md : String)
    (h : md ≠ "") :
    extract_financial_data (good.map .ok ++ .error e :: rest) =
      good.foldl pageAccum ⟨[], []⟩ ∧
    (processDocument s fileName (.ok ⟨md, good.map .ok ++ .error e :: rest⟩)
        true true).documents_processed = true ∧
    (processDocument s fileName (.ok ⟨md, good.map .ok ++ .error e :: rest⟩)
        true true).financial_data = some (good.foldl pageAccum ⟨[], []⟩) ∧
    (processDocument s fileName (.ok ⟨md, good.map .ok ++ .error e :: rest⟩)
        true true).vectorstore =
      some (split_documents (buildDocuments fileName md (good.foldl pageAccum ⟨[], []⟩))) := by
  have hex : extract_financial_data (good.map .ok ++ .error e :: rest) =
      good.foldl pageAccum ⟨[], []⟩ := finLoop_prefix good ⟨[], []⟩ e rest
  have hpd := processDocument_ok s fileName
    ⟨md, good.map Except.ok ++ Except.error e :: rest⟩ h
  rw [hpd]
  refine ⟨hex, rfl, ?_, ?_⟩
  · simp only [hex]
  · simp only [hex]

/-- Witness for C10 at a concrete upload whose second page iteration
raises. -/
theorem C10_partial_extraction_proceeds_witness :
    ("Laporan tahunan" : String) ≠ "" ∧
    extract_financial_data
        ([⟨["sel"], ["segmen"], 1⟩].map .ok ++ .error "iterasi gagal" :: []) =
      [⟨["sel"], ["segmen"], 1⟩].foldl pageAccum ⟨[], []⟩ ∧
    (processDocument (readyState []) "laporan.pdf"
        (.ok ⟨"Laporan tahunan",
          [⟨["sel"], ["segmen"], 1⟩].map .ok ++ .error "iterasi gagal" :: []⟩)
        true true).documents_processed = true :=
  ⟨by decide,
    (C10_partial_extraction_proceeds [⟨["sel"], ["segmen"], 1⟩] "iterasi gagal" []
      (readyState []) "laporan.pdf" "Laporan tahunan" (by decide)).1,
    (C10_partial_extraction_proceeds [⟨["sel"], ["segmen"], 1⟩] "iterasi gagal" []
      (readyState []) "laporan.pdf" "Laporan tahunan" (by decide)).2.1⟩

end ChatBcgx
